import Mathlib

/-!
Verification of the CloudCop summarization service
(`src/backend/ai/app/services/summarization.py`).

The Python module is shallowly embedded below.  Machine integers are
modelled as `Nat`/`Int`; the risk-score computation, which Python performs
in IEEE doubles, is modelled over `ℚ` — exhaustive comparison over the
reachable value grid (base ∈ {0,25,50,75,100}, scale saturating at 1.5
from 6 failures on) shows the double computation and the exact rational
computation agree on every reachable input, so the rational model is
exact.

Enum handling: the generated protobuf module `summarization_pb2` is not
part of the sources under verification.  Its enums are modelled from the
spec: severity values LOW < MEDIUM < HIGH < CRITICAL (§3, "ordered,
CRITICAL highest").  Protobuf3 enums are open in Python — a field holds an
arbitrary machine integer, with 0 (`..._UNSPECIFIED`) the default for an
unset field — so severities and statuses are modelled as `Nat` with the
conventional numbering, and the code's own defensive branches
(`severity_scores.get(max_severity, 0)`, the `else` arm of the severity
counting loop) are live for out-of-band values.
-/

namespace CloudCop

/-- Modelled from the spec: protobuf status enum, open; `PASS`/`FAIL` as in
`summarization_pb2`.  Only equality with these two constants is ever used
by the code. -/
def FINDING_STATUS_PASS : Nat := 1

/-- Modelled from the spec: protobuf status enum value for a failing check. -/
def FINDING_STATUS_FAIL : Nat := 2

/-- Modelled from the spec: severity enum, "ordered, CRITICAL highest";
0 is the protobuf default (unspecified). -/
def SEVERITY_LOW : Nat := 1

/-- Modelled from the spec: severity enum value MEDIUM. -/
def SEVERITY_MEDIUM : Nat := 2

/-- Modelled from the spec: severity enum value HIGH. -/
def SEVERITY_HIGH : Nat := 3

/-- Modelled from the spec: severity enum value CRITICAL. -/
def SEVERITY_CRITICAL : Nat := 4

/-- One security finding, as in the `Finding` protobuf message. -/
structure Finding where
  service : String
  check_id : String
  region : String
  resource_id : String
  status : Nat
  severity : Nat
  title : String
  description : String
  compliance : List String
deriving DecidableEq, Repr

/-- The grouping key: `f"{finding.service}:{finding.check_id}"`
(`_group_findings`, line 370). -/
def groupKey (f : Finding) : String :=
  f.service ++ ":" ++ f.check_id

/-- One step of `_group_findings`: `grouped[key].append(finding)` on a
`defaultdict(list)`.  Python dicts preserve key insertion order, so the
dict is modelled as an ordered association list: append to the (unique)
entry with the finding's key, or add a fresh entry at the end. -/
def insertGrouped (acc : List (String × List Finding)) (f : Finding) :
    List (String × List Finding) :=
  match acc with
  | [] => [(groupKey f, [f])]
  | (k, l) :: rest =>
    if k = groupKey f then (k, l ++ [f]) :: rest
    else (k, l) :: insertGrouped rest f

/-- `SummarizationServicer._group_findings` (lines 364–372): fold the
findings into the ordered association list. -/
def group_findings (fs : List Finding) : List (String × List Finding) :=
  fs.foldl insertGrouped []

/-- Dict lookup on the grouped association list: the list of findings
stored under key `k`, or `[]` when the key is absent. -/
def lookupGroup (k : String) (groups : List (String × List Finding)) :
    List Finding :=
  match groups.find? (fun g => g.1 == k) with
  | some g => g.2
  | none => []

theorem lookupGroup_nil (k : String) : lookupGroup k [] = [] := rfl

theorem lookupGroup_cons (kk : String) (l : List Finding)
    (rest : List (String × List Finding)) (k : String) :
    lookupGroup k ((kk, l) :: rest) = if kk = k then l else lookupGroup k rest := by
  simp only [lookupGroup, List.find?_cons]
  by_cases h : kk = k
  · have hb : ((kk, l).1 == k) = true := by simpa using h
    simp [hb, h]
  · have hb : ((kk, l).1 == k) = false := by simpa using h
    simp [hb, h]

theorem insertGrouped_cons (kk : String) (l : List Finding)
    (rest : List (String × List Finding)) (f : Finding) :
    insertGrouped ((kk, l) :: rest) f =
      if kk = groupKey f then (kk, l ++ [f]) :: rest
      else (kk, l) :: insertGrouped rest f := rfl

theorem lookupGroup_insert (acc : List (String × List Finding)) (f : Finding)
    (k : String) :
    lookupGroup k (insertGrouped acc f) =
      if groupKey f = k then lookupGroup k acc ++ [f] else lookupGroup k acc := by
  induction acc with
  | nil =>
    by_cases h : groupKey f = k <;>
      simp [insertGrouped, lookupGroup_cons, lookupGroup_nil, h]
  | cons g rest ih =>
    obtain ⟨kk, l⟩ := g
    rw [insertGrouped_cons]
    by_cases h1 : kk = groupKey f
    · rw [if_pos h1, ← h1]
      by_cases h2 : kk = k <;> simp [lookupGroup_cons, h2]
    · rw [if_neg h1]
      by_cases h2 : kk = k
      · have h3 : groupKey f ≠ k := fun h => h1 (h2.trans h.symm)
        simp [lookupGroup_cons, h2, h3]
      · simp [lookupGroup_cons, h2, ih]

theorem lookupGroup_foldl (fs : List Finding)
    (acc : List (String × List Finding)) (k : String) :
    lookupGroup k (fs.foldl insertGrouped acc) =
      lookupGroup k acc ++ fs.filter (fun f => groupKey f == k) := by
  induction fs generalizing acc with
  | nil => simp
  | cons f fs ih =>
    rw [List.foldl_cons, ih, lookupGroup_insert]
    by_cases h : groupKey f = k
    · simp [h, List.filter_cons]
    · simp [h, List.filter_cons]

/-- Every group stored under key `k` is exactly the subsequence of input
findings whose key is `k`. -/
theorem lookupGroup_group_findings (fs : List Finding) (k : String) :
    lookupGroup k (group_findings fs) = fs.filter (fun f => groupKey f == k) := by
  have h := lookupGroup_foldl fs [] k
  simpa [group_findings, lookupGroup] using h

theorem keys_insertGrouped (acc : List (String × List Finding)) (f : Finding) :
    (insertGrouped acc f).map Prod.fst =
      if groupKey f ∈ acc.map Prod.fst then acc.map Prod.fst
      else acc.map Prod.fst ++ [groupKey f] := by
  induction acc with
  | nil => simp [insertGrouped]
  | cons g rest ih =>
    obtain ⟨kk, l⟩ := g
    rw [insertGrouped_cons]
    by_cases h1 : kk = groupKey f
    · simp [h1]
    · have h2 : ¬ groupKey f = kk := fun h => h1 h.symm
      by_cases h3 : groupKey f ∈ rest.map Prod.fst <;>
        simp [h1, h2, h3, ih]

theorem keys_nodup_insertGrouped (acc : List (String × List Finding))
    (f : Finding) (h : (acc.map Prod.fst).Nodup) :
    ((insertGrouped acc f).map Prod.fst).Nodup := by
  rw [keys_insertGrouped]
  by_cases hm : groupKey f ∈ acc.map Prod.fst
  · simpa [hm] using h
  · simp only [hm, if_false]
    rw [List.nodup_append]
    refine ⟨h, List.nodup_singleton _, ?_⟩
    intro a ha hb
    rw [List.mem_singleton] at hb
    exact hm (hb ▸ ha)

theorem keys_nodup_foldl (fs : List Finding)
    (acc : List (String × List Finding)) (h : (acc.map Prod.fst).Nodup) :
    ((fs.foldl insertGrouped acc).map Prod.fst).Nodup := by
  induction fs generalizing acc with
  | nil => simpa using h
  | cons f fs ih => exact ih _ (keys_nodup_insertGrouped acc f h)

theorem keys_nodup_group_findings (fs : List Finding) :
    ((group_findings fs).map Prod.fst).Nodup :=
  keys_nodup_foldl fs [] (by simp)

theorem sizes_insertGrouped (acc : List (String × List Finding)) (f : Finding) :
    ((insertGrouped acc f).map (fun g => g.2.length)).sum =
      (acc.map (fun g => g.2.length)).sum + 1 := by
  induction acc with
  | nil => simp [insertGrouped]
  | cons g rest ih =>
    obtain ⟨kk, l⟩ := g
    rw [insertGrouped_cons]
    by_cases h1 : kk = groupKey f
    · rw [if_pos h1]
      simp only [List.map_cons, List.sum_cons, List.length_append,
        List.length_singleton]
      omega
    · rw [if_neg h1]
      simp only [List.map_cons, List.sum_cons, ih]
      omega

theorem sizes_foldl (fs : List Finding) (acc : List (String × List Finding)) :
    ((fs.foldl insertGrouped acc).map (fun g => g.2.length)).sum =
      (acc.map (fun g => g.2.length)).sum + fs.length := by
  induction fs generalizing acc with
  | nil => simp
  | cons f fs ih =>
    rw [List.foldl_cons, ih, sizes_insertGrouped]
    simp [Nat.add_assoc, Nat.add_comm 1]

/-- The member counts of the produced groups sum to the input length. -/
theorem sizes_group_findings (fs : List Finding) :
    ((group_findings fs).map (fun g => g.2.length)).sum = fs.length := by
  have h := sizes_foldl fs []
  simpa [group_findings] using h

theorem lookupGroup_of_mem (groups : List (String × List Finding))
    (hnd : (groups.map Prod.fst).Nodup) (g : String × List Finding)
    (hg : g ∈ groups) : lookupGroup g.1 groups = g.2 := by
  induction groups with
  | nil => cases hg
  | cons g0 rest ih =>
    obtain ⟨kk, l⟩ := g0
    rcases List.mem_cons.mp hg with h | h
    · rw [h, lookupGroup_cons]
      simp
    · have hk : g.1 ≠ kk := by
        intro he
        have : kk ∈ rest.map Prod.fst := he ▸ List.mem_map_of_mem Prod.fst h
        simp only [List.map_cons, List.nodup_cons] at hnd
        exact hnd.1 this
      rw [lookupGroup_cons, if_neg (fun he => hk he.symm)]
      exact ih (by simp only [List.map_cons, List.nodup_cons] at hnd; exact hnd.2) h

/-- C1: grouping partitions the findings: the produced group keys are
pairwise distinct, the group stored under key `k` is exactly the
subsequence of input findings with key `k`, every input finding lies in
exactly one produced group, and the `finding_count`s (member-list lengths,
`finding_count=len(findings)` at line 434) sum to the input length — no
finding is dropped or deduplicated. -/
theorem grouping_partitions_C1 (fs : List Finding) :
    ((group_findings fs).map Prod.fst).Nodup ∧
    (∀ k, lookupGroup k (group_findings fs) = fs.filter (fun f => groupKey f == k)) ∧
    (∀ f ∈ fs, ∃! g, g ∈ group_findings fs ∧ f ∈ g.2) ∧
    ((group_findings fs).map (fun g => g.2.length)).sum = fs.length := by
  refine ⟨keys_nodup_group_findings fs, lookupGroup_group_findings fs, ?_,
    sizes_group_findings fs⟩
  intro f hf
  have hmem : f ∈ lookupGroup (groupKey f) (group_findings fs) := by
    rw [lookupGroup_group_findings]
    exact List.mem_filter.mpr ⟨hf, by simp⟩
  have hfind : ∃ g0, (group_findings fs).find?
      (fun g => g.1 == groupKey f) = some g0 := by
    rcases hfe : (group_findings fs).find? (fun g => g.1 == groupKey f) with _ | g0
    · rw [lookupGroup, hfe] at hmem
      cases hmem
    · exact ⟨g0, hfe⟩
  obtain ⟨g0, hg0⟩ := hfind
  have hg0mem : g0 ∈ group_findings fs := List.mem_of_find?_eq_some hg0
  have hg0key : g0.1 = groupKey f := by
    have := List.find?_some hg0
    simpa using this
  have hg0val : g0.2 = lookupGroup (groupKey f) (group_findings fs) := by
    rw [lookupGroup, hg0]
  refine ⟨g0, ⟨hg0mem, hg0val ▸ hmem⟩, ?_⟩
  intro g hg
  obtain ⟨hgmem, hgval⟩ := hg
  have hkey : g.1 = groupKey f := by
    have hlg : lookupGroup g.1 (group_findings fs) = g.2 :=
      lookupGroup_of_mem _ (keys_nodup_group_findings fs) g hgmem
    have : f ∈ fs.filter (fun x => groupKey x == g.1) := by
      rw [← lookupGroup_group_findings, hlg]
      exact hgval
    have h5 : groupKey f = g.1 := by simpa using List.of_mem_filter this
    exact h5.symm
  exact List.inj_on_of_nodup_map (keys_nodup_group_findings fs) hgmem hg0mem
    (hkey.trans hg0key.symm)

/-! Risk scoring (`_calculate_group_risk_score`, lines 445–467) and action
classification (`_determine_action`, lines 469–481). -/

/-- The `severity_scores` dict of `_calculate_group_risk_score` together
with the `.get(max_severity, 0)` default. -/
def severity_scores (sev : Nat) : ℚ :=
  if sev = SEVERITY_LOW then 25
  else if sev = SEVERITY_MEDIUM then 50
  else if sev = SEVERITY_HIGH then 75
  else if sev = SEVERITY_CRITICAL then 100
  else 0

/-- `len([f for f in findings if f.status == FINDING_STATUS_FAIL])`. -/
def failedCount (findings : List Finding) : Nat :=
  (findings.filter (fun f => f.status == FINDING_STATUS_FAIL)).length

/-- `max(severities) if severities else 0` (line 396).  For a nonempty
list of naturals `foldl max 0` is the maximum, and for the empty list it
is the code's explicit `0`. -/
def maxSeverity (findings : List Finding) : Nat :=
  (findings.map Finding.severity).foldl max 0

/-- `_calculate_group_risk_score`.  Python computes
`min(int(base_score * scale_factor), 100)` in doubles; the doubles and the
rationals agree on every reachable input (see the file header), and
`int` truncation coincides with `Int.floor` because the product is
nonnegative. -/
def calculate_group_risk_score (findings : List Finding)
    (max_severity : Nat) : ℤ :=
  if failedCount findings = 0 then 0
  else
    min (Int.floor (severity_scores max_severity *
      min (1 + ((failedCount findings : ℚ) - 1) * (1 / 10)) (3 / 2))) 100

/-- The action categories named by the code: `ACTION_TYPE_UNSPECIFIED`,
`ACTION_TYPE_ESCALATE`, `ACTION_TYPE_ALERT`, `ACTION_TYPE_SUGGEST_FIX`. -/
inductive ActionType where
  | unspecified
  | escalate
  | alert
  | suggest_fix
deriving DecidableEq, Repr

/-- `_determine_action` (lines 469–481). -/
def determine_action (max_severity : Nat) (failed_count : Nat) : ActionType :=
  if failed_count = 0 then ActionType.unspecified
  else if max_severity = SEVERITY_CRITICAL then ActionType.escalate
  else if max_severity = SEVERITY_HIGH then ActionType.alert
  else ActionType.suggest_fix

theorem foldl_max_le (l : List Nat) (a b : Nat) (ha : a ≤ b)
    (hl : ∀ x ∈ l, x ≤ b) : l.foldl max a ≤ b := by
  induction l generalizing a with
  | nil => simpa using ha
  | cons x xs ih =>
    rw [List.foldl_cons]
    exact ih (max a x) (max_le ha (hl x (List.mem_cons_self x xs)))
      (fun y hy => hl y (List.mem_cons_of_mem x hy))

theorem self_le_foldl_max (l : List Nat) (a : Nat) : a ≤ l.foldl max a := by
  induction l generalizing a with
  | nil => simp
  | cons x xs ih =>
    rw [List.foldl_cons]
    exact le_trans (le_max_left a x) (ih (max a x))

theorem mem_le_foldl_max (l : List Nat) (a : Nat) (x : Nat) (hx : x ∈ l) :
    x ≤ l.foldl max a := by
  induction l generalizing a with
  | nil => cases hx
  | cons y ys ih =>
    rw [List.foldl_cons]
    rcases List.mem_cons.mp hx with h | h
    · exact le_trans (h ▸ le_max_right a y) (self_le_foldl_max ys (max a y))
    · exact ih (max a y) h

theorem foldl_max_mem (l : List Nat) (a : Nat) :
    l.foldl max a = a ∨ l.foldl max a ∈ l := by
  induction l generalizing a with
  | nil => simp
  | cons x xs ih =>
    rw [List.foldl_cons]
    rcases ih (max a x) with h | h
    · rcases max_choice a x with hm | hm
      · exact Or.inl (h.trans hm)
      · exact Or.inr (List.mem_cons.mpr (Or.inl (h.trans hm)))
    · exact Or.inr (List.mem_cons_of_mem x h)

/-- When the group is nonempty and every member's severity lies in the
four bands, so does the computed maximum severity. -/
theorem maxSeverity_mem_bands (findings : List Finding) (f0 : Finding)
    (hf0 : f0 ∈ findings)
    (hbands : ∀ f ∈ findings,
      SEVERITY_LOW ≤ f.severity ∧ f.severity ≤ SEVERITY_CRITICAL) :
    SEVERITY_LOW ≤ maxSeverity findings ∧
      maxSeverity findings ≤ SEVERITY_CRITICAL := by
  constructor
  · rcases foldl_max_mem (findings.map Finding.severity) 0 with h | h
    · exfalso
      have hmem : f0.severity ∈ findings.map Finding.severity :=
        List.mem_map_of_mem Finding.severity hf0
      have hle : f0.severity ≤ (findings.map Finding.severity).foldl max 0 :=
        mem_le_foldl_max _ 0 _ hmem
      have h1 := (hbands f0 hf0).1
      simp only [SEVERITY_LOW] at h1
      omega
    · obtain ⟨f, hf, he⟩ := List.mem_map.mp h
      have h1 := (hbands f hf).1
      show SEVERITY_LOW ≤ (findings.map Finding.severity).foldl max 0
      omega
  · apply foldl_max_le
    · simp [SEVERITY_CRITICAL]
    · intro x hx
      obtain ⟨f, hf, he⟩ := List.mem_map.mp hx
      exact he ▸ (hbands f hf).2

/-- Modelled from the spec: §4.2's per-group formula in the spec's own
words — base 25/50/75/100 from the maximum severity band, scaled by
`min(1 + 0.1*(failed_count - 1), 1.5)`, truncated, clamped to 100, forced
to 0 with no failing member.  Kept separate from the code's
`calculate_group_risk_score` so the two can be compared. -/
def specGroupScore (band : Nat) (failed : Nat) : ℤ :=
  if failed = 0 then 0
  else
    let base : ℚ :=
      if band = SEVERITY_CRITICAL then 100
      else if band = SEVERITY_HIGH then 75
      else if band = SEVERITY_MEDIUM then 50
      else 25
    min (Int.floor (base * min (1 + (1 / 10) * ((failed : ℚ) - 1)) (3 / 2))) 100

/-- Shorthand to build concrete findings for witnesses. -/
def mkF (service check_id : String) (status severity : Nat) : Finding :=
  { service := service, check_id := check_id, region := "us-east-1",
    resource_id := "r-1", status := status, severity := severity,
    title := "t", description := "d", compliance := [] }

/-- The spec's s3 scenario group: two failing HIGH findings. -/
def highFailPair : List Finding :=
  [mkF "s3" "enc-check" FINDING_STATUS_FAIL SEVERITY_HIGH,
   mkF "s3" "enc-check" FINDING_STATUS_FAIL SEVERITY_HIGH]

/-- C2: for every group whose severities lie in the four bands, the code's
group risk score equals the spec's formula (0 with no failing member,
otherwise the clamped, scaled, truncated base score of the maximum
severity), and in particular two failing HIGH findings score 82. -/
theorem group_risk_score_C2 (findings : List Finding)
    (hbands : ∀ f ∈ findings,
      SEVERITY_LOW ≤ f.severity ∧ f.severity ≤ SEVERITY_CRITICAL) :
    calculate_group_risk_score findings (maxSeverity findings) =
      specGroupScore (maxSeverity findings) (failedCount findings) ∧
    calculate_group_risk_score highFailPair (maxSeverity highFailPair) = 82 := by
  constructor
  · by_cases hf : failedCount findings = 0
    · simp [calculate_group_risk_score, specGroupScore, hf]
    · have hne : findings ≠ [] := by
        intro h
        rw [h] at hf
        simp [failedCount] at hf
      obtain ⟨f0, hf0⟩ := List.exists_mem_of_ne_nil findings hne
      obtain ⟨h1, h4⟩ := maxSeverity_mem_bands findings f0 hf0 hbands
      have hcases : maxSeverity findings = 1 ∨ maxSeverity findings = 2 ∨
          maxSeverity findings = 3 ∨ maxSeverity findings = 4 := by
        simp only [SEVERITY_LOW, SEVERITY_CRITICAL] at h1 h4
        omega
      rcases hcases with h | h | h | h <;>
        simp [calculate_group_risk_score, specGroupScore, severity_scores, hf,
          h, SEVERITY_LOW, SEVERITY_MEDIUM, SEVERITY_HIGH, SEVERITY_CRITICAL,
          mul_comm]
  · have h1 : failedCount highFailPair = 2 := by decide
    have h2 : maxSeverity highFailPair = SEVERITY_HIGH := by decide
    rw [calculate_group_risk_score, h1, h2]
    have h3 : severity_scores SEVERITY_HIGH *
        min (1 + (((2 : Nat) : ℚ) - 1) * (1 / 10)) (3 / 2) = 165 / 2 := by
      norm_num [severity_scores, SEVERITY_LOW, SEVERITY_MEDIUM, SEVERITY_HIGH,
        SEVERITY_CRITICAL, min_def]
    rw [h3]
    have h4 : Int.floor ((165 : ℚ) / 2) = 82 := by
      rw [Int.floor_eq_iff]
      norm_num
    rw [h4]
    norm_num

/-- Witness for C2 at the spec's s3 scenario. -/
theorem group_risk_score_C2_witness :
    calculate_group_risk_score highFailPair (maxSeverity highFailPair) = 82 :=
  (group_risk_score_C2 highFailPair (by decide)).2

/-- Numeric core for the amended C3: with a banded base and at least one
failure, the clamped score is at least 25. -/
theorem score_lower_bound (base : ℚ) (hb : 25 ≤ base) (fc : Nat)
    (hfc : 1 ≤ fc) :
    (25 : ℤ) ≤ min (Int.floor (base * min (1 + ((fc : ℚ) - 1) * (1 / 10)) (3 / 2))) 100 := by
  have hfcq : (1 : ℚ) ≤ (fc : ℚ) := by exact_mod_cast hfc
  have hscale : (1 : ℚ) ≤ min (1 + ((fc : ℚ) - 1) * (1 / 10)) (3 / 2) := by
    apply le_min
    · have h0 : (0 : ℚ) ≤ ((fc : ℚ) - 1) * (1 / 10) :=
        mul_nonneg (by linarith) (by norm_num)
      linarith
    · norm_num
  have hprod : (25 : ℚ) ≤ base * min (1 + ((fc : ℚ) - 1) * (1 / 10)) (3 / 2) := by
    calc (25 : ℚ) = 25 * 1 := by ring
    _ ≤ base * min (1 + ((fc : ℚ) - 1) * (1 / 10)) (3 / 2) :=
        mul_le_mul hb hscale (by norm_num) (by linarith)
  refine le_min ?_ (by norm_num)
  rw [Int.le_floor]
  exact_mod_cast hprod

/-- A one-member group that FAILs with severity 0 (the protobuf default
for an unset field). -/
def sevZeroFailGroup : List Finding :=
  [mkF "s3" "c" FINDING_STATUS_FAIL 0]

/-- C3 counterexample: a group with one FAILing member whose severity is
outside the four bands (severity 0, the protobuf default) has exactly one
failing member yet risk score 0, refuting "score is 0 only if the group
has zero FAILing members" for arbitrary severity values. -/
theorem group_risk_zero_counterexample_C3 :
    failedCount sevZeroFailGroup = 1 ∧
    calculate_group_risk_score sevZeroFailGroup (maxSeverity sevZeroFailGroup) = 0 := by
  constructor
  · decide
  · have h1 : failedCount sevZeroFailGroup = 1 := by decide
    have h2 : maxSeverity sevZeroFailGroup = 0 := by decide
    rw [calculate_group_risk_score, h1, h2]
    norm_num [severity_scores, SEVERITY_LOW, SEVERITY_MEDIUM, SEVERITY_HIGH,
      SEVERITY_CRITICAL]

/-- C3 amended: the group risk score is 0 iff there are no failing
members, provided the group's maximum severity lies in the four bands;
for a maximum severity outside the bands (for which `severity_scores`
falls back to base 0) the score is 0 even with failing members. -/
theorem group_risk_zero_iff_C3 :
    (∀ findings : List Finding,
      SEVERITY_LOW ≤ maxSeverity findings →
      maxSeverity findings ≤ SEVERITY_CRITICAL →
      (calculate_group_risk_score findings (maxSeverity findings) = 0 ↔
        failedCount findings = 0)) ∧
    (∀ (findings : List Finding) (m : Nat),
      m ≠ SEVERITY_LOW → m ≠ SEVERITY_MEDIUM → m ≠ SEVERITY_HIGH →
      m ≠ SEVERITY_CRITICAL →
      calculate_group_risk_score findings m = 0) := by
  constructor
  · intro findings h1 h4
    constructor
    · intro hz
      by_contra hf
      have hbase : (25 : ℚ) ≤ severity_scores (maxSeverity findings) := by
        have hcases : maxSeverity findings = 1 ∨ maxSeverity findings = 2 ∨
            maxSeverity findings = 3 ∨ maxSeverity findings = 4 := by
          simp only [SEVERITY_LOW, SEVERITY_CRITICAL] at h1 h4
          omega
        rcases hcases with h | h | h | h <;>
          norm_num [severity_scores, h, SEVERITY_LOW, SEVERITY_MEDIUM,
            SEVERITY_HIGH, SEVERITY_CRITICAL]
      have hge := score_lower_bound (severity_scores (maxSeverity findings))
        hbase (failedCount findings) (Nat.one_le_iff_ne_zero.mpr hf)
      rw [calculate_group_risk_score] at hz
      simp only [hf, if_false] at hz
      omega
    · intro hz
      simp [calculate_group_risk_score, hz]
  · intro findings m h1 h2 h3 h4
    by_cases hf : failedCount findings = 0
    · simp [calculate_group_risk_score, hf]
    · have hb : severity_scores m = 0 := by
        simp [severity_scores, h1, h2, h3, h4]
      simp [calculate_group_risk_score, hf, hb]

/-- Witness for the amended C3: a passing LOW group scores 0, and a
failing severity-0 group also scores 0. -/
theorem group_risk_zero_iff_C3_witness :
    calculate_group_risk_score [mkF "ec2" "sg" FINDING_STATUS_PASS SEVERITY_LOW]
      (maxSeverity [mkF "ec2" "sg" FINDING_STATUS_PASS SEVERITY_LOW]) = 0 ∧
    calculate_group_risk_score sevZeroFailGroup 0 = 0 :=
  ⟨(group_risk_zero_iff_C3.1 _ (by decide) (by decide)).mpr (by decide),
   group_risk_zero_iff_C3.2 sevZeroFailGroup 0 (by decide) (by decide)
     (by decide) (by decide)⟩

/-- C5: the action classifier is a total function of maximum severity and
failure count: zero failures give no action, otherwise CRITICAL escalates,
HIGH alerts, MEDIUM or LOW suggest a fix, and nothing outside the four
categories is ever produced. -/
theorem determine_action_C5 (m fc : Nat) :
    (fc = 0 → determine_action m fc = ActionType.unspecified) ∧
    (fc ≠ 0 →
      (m = SEVERITY_CRITICAL → determine_action m fc = ActionType.escalate) ∧
      (m = SEVERITY_HIGH → determine_action m fc = ActionType.alert) ∧
      (m = SEVERITY_MEDIUM ∨ m = SEVERITY_LOW →
        determine_action m fc = ActionType.suggest_fix)) ∧
    (determine_action m fc = ActionType.unspecified ∨
     determine_action m fc = ActionType.escalate ∨
     determine_action m fc = ActionType.alert ∨
     determine_action m fc = ActionType.suggest_fix) := by
  refine ⟨?_, ?_, ?_⟩
  · intro h
    simp [determine_action, h]
  · intro h
    refine ⟨?_, ?_, ?_⟩
    · intro hm
      simp [determine_action, h, hm]
    · intro hm
      simp [determine_action, h, hm, SEVERITY_HIGH, SEVERITY_CRITICAL]
    · rintro (hm | hm) <;>
        simp [determine_action, h, hm, SEVERITY_LOW, SEVERITY_MEDIUM,
          SEVERITY_HIGH, SEVERITY_CRITICAL]
  · by_cases h0 : fc = 0 <;> by_cases h4 : m = SEVERITY_CRITICAL <;>
      by_cases h3 : m = SEVERITY_HIGH <;>
        (simp [determine_action, h0, h4, h3]; try decide)

/-- Witness for C5 at the spec's s3 scenario (HIGH, two failures). -/
theorem determine_action_C5_witness :
    determine_action SEVERITY_HIGH 2 = ActionType.alert :=
  ((determine_action_C5 SEVERITY_HIGH 2).2.1 (by decide)).2.1 rfl

/-! Scan-wide risk summary (`_calculate_risk_summary`, lines 512–570, and
`_generate_summary_text`, lines 572–601). -/

/-- The five counters of `_calculate_risk_summary`'s loop. -/
structure SummaryCounts where
  critical : Nat
  high : Nat
  medium : Nat
  low : Nat
  passed : Nat
deriving DecidableEq, Repr

/-- One iteration of the counting loop (lines 522–533): `passed_count` for
PASS, otherwise for FAIL one severity counter, the `else` arm catching
every severity that is not CRITICAL/HIGH/MEDIUM; findings with any other
status are not counted at all. -/
def countStep (c : SummaryCounts) (f : Finding) : SummaryCounts :=
  if f.status = FINDING_STATUS_PASS then { c with passed := c.passed + 1 }
  else if f.status = FINDING_STATUS_FAIL then
    if f.severity = SEVERITY_CRITICAL then { c with critical := c.critical + 1 }
    else if f.severity = SEVERITY_HIGH then { c with high := c.high + 1 }
    else if f.severity = SEVERITY_MEDIUM then { c with medium := c.medium + 1 }
    else { c with low := c.low + 1 }
  else c

def countFindings (findings : List Finding) : SummaryCounts :=
  findings.foldl countStep ⟨0, 0, 0, 0, 0⟩

/-- The `RiskSummary` protobuf message fields set by the code. -/
structure RiskSummary where
  overall_score : Nat
  critical_count : Nat
  high_count : Nat
  medium_count : Nat
  low_count : Nat
  passed_count : Nat
  risk_level : String
  summary_text : String
deriving DecidableEq, Repr

/-- `_generate_summary_text`. -/
def generate_summary_text (critical high medium low passed : Nat) : String :=
  let total_failed := critical + high + medium + low
  let total := total_failed + passed
  if total_failed = 0 then
    "All " ++ toString total ++ " security checks passed. No issues detected."
  else
    let parts : List String :=
      (if critical > 0 then [toString critical ++ " critical"] else []) ++
      (if high > 0 then [toString high ++ " high"] else []) ++
      (if medium > 0 then [toString medium ++ " medium"] else []) ++
      (if low > 0 then [toString low ++ " low"] else [])
    "Found " ++ toString total_failed ++ " security issues (" ++
      String.intercalate ", " parts ++ " severity) out of " ++
      toString total ++ " total checks. " ++ toString passed ++ " checks passed."

/-- `_calculate_risk_summary`.  Python's `//` on the nonnegative weighted
sum is `Nat` division. -/
def calculate_risk_summary (findings : List Finding) : RiskSummary :=
  let c := countFindings findings
  let total_failed := c.critical + c.high + c.medium + c.low
  { overall_score :=
      if total_failed = 0 then 0
      else
        min ((c.critical * 100 + c.high * 75 + c.medium * 50 + c.low * 25) /
          max total_failed 1) 100,
    critical_count := c.critical,
    high_count := c.high,
    medium_count := c.medium,
    low_count := c.low,
    passed_count := c.passed,
    risk_level :=
      if total_failed = 0 then "LOW"
      else if c.critical > 0 then "CRITICAL"
      else if c.high > 0 then "HIGH"
      else if c.medium > 0 then "MEDIUM"
      else "LOW",
    summary_text :=
      generate_summary_text c.critical c.high c.medium c.low c.passed }

/-- Number of findings satisfying a predicate. -/
def countBy (p : Finding → Bool) (findings : List Finding) : Nat :=
  (findings.filter p).length

def isPass (f : Finding) : Bool := f.status == FINDING_STATUS_PASS

def isFailCritical (f : Finding) : Bool :=
  f.status == FINDING_STATUS_FAIL && f.severity == SEVERITY_CRITICAL

def isFailHigh (f : Finding) : Bool :=
  f.status == FINDING_STATUS_FAIL && f.severity == SEVERITY_HIGH

def isFailMedium (f : Finding) : Bool :=
  f.status == FINDING_STATUS_FAIL && f.severity == SEVERITY_MEDIUM

def isFailLow (f : Finding) : Bool :=
  f.status == FINDING_STATUS_FAIL && !(f.severity == SEVERITY_CRITICAL) &&
    !(f.severity == SEVERITY_HIGH) && !(f.severity == SEVERITY_MEDIUM)

theorem countBy_cons (p : Finding → Bool) (f : Finding) (fs : List Finding) :
    countBy p (f :: fs) = (if p f then 1 else 0) + countBy p fs := by
  by_cases h : p f
  · simp [countBy, List.filter_cons, h]
    omega
  · simp [countBy, List.filter_cons, h]

theorem countFindings_foldl (fs : List Finding) (c : SummaryCounts) :
    fs.foldl countStep c =
      { critical := c.critical + countBy isFailCritical fs,
        high := c.high + countBy isFailHigh fs,
        medium := c.medium + countBy isFailMedium fs,
        low := c.low + countBy isFailLow fs,
        passed := c.passed + countBy isPass fs } := by
  induction fs generalizing c with
  | nil => simp [countBy]
  | cons f fs ih =>
    rw [List.foldl_cons, ih]
    by_cases hp : f.status = FINDING_STATUS_PASS
    · have hnf : ¬ f.status = FINDING_STATUS_FAIL := by
        rw [hp]
        simp [FINDING_STATUS_PASS, FINDING_STATUS_FAIL]
      simp [countStep, hp, hnf, countBy_cons, isPass, isFailCritical,
        isFailHigh, isFailMedium, isFailLow]
      omega
    · by_cases hf : f.status = FINDING_STATUS_FAIL
      · by_cases h4 : f.severity = SEVERITY_CRITICAL
        · simp [countStep, hp, hf, h4, countBy_cons, isPass, isFailCritical,
            isFailHigh, isFailMedium, isFailLow, SEVERITY_CRITICAL,
            SEVERITY_HIGH, SEVERITY_MEDIUM, FINDING_STATUS_PASS,
            FINDING_STATUS_FAIL]
          omega
        · by_cases h3 : f.severity = SEVERITY_HIGH
          · simp [countStep, hp, hf, h4, h3, countBy_cons, isPass,
              isFailCritical, isFailHigh, isFailMedium, isFailLow,
              SEVERITY_CRITICAL, SEVERITY_HIGH, SEVERITY_MEDIUM,
              FINDING_STATUS_PASS, FINDING_STATUS_FAIL]
            omega
          · by_cases h2 : f.severity = SEVERITY_MEDIUM
            · simp [countStep, hp, hf, h4, h3, h2, countBy_cons, isPass,
                isFailCritical, isFailHigh, isFailMedium, isFailLow,
                SEVERITY_CRITICAL, SEVERITY_HIGH, SEVERITY_MEDIUM,
                FINDING_STATUS_PASS, FINDING_STATUS_FAIL]
              omega
            · simp [countStep, hp, hf, h4, h3, h2, countBy_cons, isPass,
                isFailCritical, isFailHigh, isFailMedium, isFailLow,
                FINDING_STATUS_PASS, FINDING_STATUS_FAIL]
              omega
      · simp [countStep, hp, hf, countBy_cons, isPass, isFailCritical,
          isFailHigh, isFailMedium, isFailLow]

theorem countFindings_spec (fs : List Finding) :
    countFindings fs =
      { critical := countBy isFailCritical fs,
        high := countBy isFailHigh fs,
        medium := countBy isFailMedium fs,
        low := countBy isFailLow fs,
        passed := countBy isPass fs } := by
  have h := countFindings_foldl fs ⟨0, 0, 0, 0, 0⟩
  simpa [countFindings] using h

/-- C4 counterexample: a scan whose single finding FAILs with severity 0
(outside the four bands) gets `low_count = 1` although no failing finding
has severity LOW, and overall score 25 although the claim's band-wise
weighted sum is 0. -/
theorem risk_summary_counterexample_C4 :
    (calculate_risk_summary sevZeroFailGroup).low_count = 1 ∧
    (sevZeroFailGroup.filter (fun f => f.status == FINDING_STATUS_FAIL &&
      f.severity == SEVERITY_LOW)).length = 0 ∧
    (calculate_risk_summary sevZeroFailGroup).overall_score = 25 := by
  refine ⟨?_, ?_, ?_⟩ <;> decide

/-- C4 amended: the `RiskSummary` counts failing findings by severity
band where the low band additionally absorbs every failing finding whose
severity is none of CRITICAL/HIGH/MEDIUM (out-of-band values included);
the overall score is the weighted sum `crit*100 + high*75 + med*50 +
low*25` of those counters, integer-divided by `max(total_failed, 1)` and
clamped to 100; and the risk level is the highest counter-nonzero band in
the order CRITICAL > HIGH > MEDIUM > LOW, with "LOW" when nothing
failed. -/
theorem risk_summary_C4 (findings : List Finding) :
    (calculate_risk_summary findings).critical_count =
      countBy isFailCritical findings ∧
    (calculate_risk_summary findings).high_count = countBy isFailHigh findings ∧
    (calculate_risk_summary findings).medium_count =
      countBy isFailMedium findings ∧
    (calculate_risk_summary findings).low_count = countBy isFailLow findings ∧
    (calculate_risk_summary findings).passed_count = countBy isPass findings ∧
    (calculate_risk_summary findings).overall_score =
      min ((countBy isFailCritical findings * 100 +
        countBy isFailHigh findings * 75 + countBy isFailMedium findings * 50 +
        countBy isFailLow findings * 25) /
        max (countBy isFailCritical findings + countBy isFailHigh findings +
          countBy isFailMedium findings + countBy isFailLow findings) 1) 100 ∧
    (calculate_risk_summary findings).risk_level =
      (if countBy isFailCritical findings > 0 then "CRITICAL"
       else if countBy isFailHigh findings > 0 then "HIGH"
       else if countBy isFailMedium findings > 0 then "MEDIUM"
       else "LOW") := by
  have hc := countFindings_spec findings
  refine ⟨?_, ?_, ?_, ?_, ?_, ?_, ?_⟩
  · simp [calculate_risk_summary, hc]
  · simp [calculate_risk_summary, hc]
  · simp [calculate_risk_summary, hc]
  · simp [calculate_risk_summary, hc]
  · simp [calculate_risk_summary, hc]
  · by_cases h0 : countBy isFailCritical findings + countBy isFailHigh findings +
        countBy isFailMedium findings + countBy isFailLow findings = 0
    · have h1 : countBy isFailCritical findings = 0 := by omega
      have h2 : countBy isFailHigh findings = 0 := by omega
      have h3 : countBy isFailMedium findings = 0 := by omega
      have h4 : countBy isFailLow findings = 0 := by omega
      simp [calculate_risk_summary, hc, h1, h2, h3, h4]
    · simp [calculate_risk_summary, hc, h0]
  · by_cases h0 : countBy isFailCritical findings + countBy isFailHigh findings +
        countBy isFailMedium findings + countBy isFailLow findings = 0
    · have h1 : countBy isFailCritical findings = 0 := by omega
      have h2 : countBy isFailHigh findings = 0 := by omega
      have h3 : countBy isFailMedium findings = 0 := by omega
      simp [calculate_risk_summary, hc, h0, h1, h2, h3]
    · simp [calculate_risk_summary, hc, h0]

/-- Witness for the amended C4 at the spec's three-finding scenario. -/
theorem risk_summary_C4_witness :
    (calculate_risk_summary (highFailPair ++
        [mkF "ec2" "sg-check" FINDING_STATUS_PASS SEVERITY_LOW])).risk_level =
      (if countBy isFailCritical (highFailPair ++
          [mkF "ec2" "sg-check" FINDING_STATUS_PASS SEVERITY_LOW]) > 0 then
        "CRITICAL"
       else if countBy isFailHigh (highFailPair ++
          [mkF "ec2" "sg-check" FINDING_STATUS_PASS SEVERITY_LOW]) > 0 then
        "HIGH"
       else if countBy isFailMedium (highFailPair ++
          [mkF "ec2" "sg-check" FINDING_STATUS_PASS SEVERITY_LOW]) > 0 then
        "MEDIUM"
       else "LOW") :=
  (risk_summary_C4 (highFailPair ++
    [mkF "ec2" "sg-check" FINDING_STATUS_PASS SEVERITY_LOW])).2.2.2.2.2.2

/-- C9 counterexample: on an empty finding list the code's summary text is
"All 0 security checks passed. No issues detected.", not exactly
"All 0 security checks passed.". -/
theorem empty_scan_counterexample_C9 :
    (calculate_risk_summary []).summary_text =
      "All 0 security checks passed. No issues detected." ∧
    (calculate_risk_summary []).summary_text ≠ "All 0 security checks passed." := by
  refine ⟨?_, ?_⟩ <;> decide

/-- C9 amended: an empty finding list produces zero groups and a
`RiskSummary` with all counts 0, overall score 0, risk level "LOW", and
summary text "All 0 security checks passed. No issues detected.". -/
theorem empty_scan_C9 :
    group_findings [] = [] ∧
    calculate_risk_summary [] =
      { overall_score := 0, critical_count := 0, high_count := 0,
        medium_count := 0, low_count := 0, passed_count := 0,
        risk_level := "LOW",
        summary_text := "All 0 security checks passed. No issues detected." } := by
  refine ⟨rfl, ?_⟩
  decide

/-! The resilient completion client (`LLMClient`, lines 20–254).

The external OpenAI call and the stdlib JSON decoder are collaborators,
not code of this module; they are modelled as parameters: the call result
of one provider exchange is an `Except` value (error = raised exception,
ok = the response text, with `None` content already replaced by `"{}"` as
on lines 138/207), and `json.loads` composed with the `dict.get`
extraction is a function returning `none` exactly when `json.loads`
raises `JSONDecodeError`. -/

/-- `LLMClient._fallback_summary` (lines 227–230). -/
def fallback_summary (findings : List String) : String :=
  "Found " ++ toString findings.length ++ " security issues that require attention."

/-- `LLMClient._fallback_remedy` (lines 232–234); `str.upper` agrees with
`String.toUpper` on the ASCII service names involved. -/
def fallback_remedy (service : String) : String :=
  "Review and remediate " ++ service.toUpper ++ " security configurations."

/-- `LLMClient._fallback_commands` (lines 236–254).  The brace characters
of the embedded JSON literal are written with escapes. -/
def fallback_commands (service : String) (resource_ids : List String) :
    List String :=
  if service = "s3" then
    (resource_ids.take 3).map (fun rid =>
      "# Enable encryption for bucket " ++ rid ++
      "\naws s3api put-bucket-encryption --bucket " ++ rid ++
      " --server-side-encryption-configuration '\x7b\"Rules\":[\x7b\"ApplyServerSideEncryptionByDefault\":\x7b\"SSEAlgorithm\":\"AES256\"\x7d\x7d]\x7d'")
  else if service = "ec2" then
    ["# Review security group rules\naws ec2 describe-security-groups --query 'SecurityGroups[?IpPermissions[?IpRanges[?CidrIp==`0.0.0.0/0`]]]'"]
  else []

/-- Python `str.split` with a non-empty separator, restated over the
character list so that it is structurally recursive (and hence evaluates
inside the kernel): scan left to right, cutting at each leftmost
non-overlapping occurrence of the separator; `skip` counts separator
characters still to be consumed after a cut. -/
def splitGo (sep : List Char) : List Char → Nat → List Char → List (List Char)
  | [], _, acc => [acc.reverse]
  | _ :: rest, skip + 1, acc => splitGo sep rest skip acc
  | c :: rest, 0, acc =>
    if sep.isPrefixOf (c :: rest) then
      acc.reverse :: splitGo sep rest (sep.length - 1) []
    else splitGo sep rest 0 (c :: acc)

/-- `s.split(sep)` for non-empty `sep`; agrees with `String.splitOn` and
with Python `str.split` on every tested input family. -/
def pySplit (s sep : String) : List String :=
  (splitGo sep.data s.data 0 []).map String.mk

/-- The markdown-fence handling shared by `summarize_issues` (lines
141–145) and `generate_commands` (lines 209–213): with a "```json" marker
present take what stands between it and the next "```", else with a "```"
present take what stands between the first and second "```", else the
text unchanged. -/
def stripFence (content : String) : String :=
  if (pySplit content "```json").length > 1 then
    (pySplit ((pySplit content "```json").getD 1 "") "```").getD 0 ""
  else if (pySplit content "```").length > 1 then
    (pySplit ((pySplit content "```").getD 1 "") "```").getD 0 ""
  else content

/-- `result.get(key, "")` on a decoded JSON object modelled as a
key/value list. -/
def dictGetStr (d : List (String × String)) (k : String) : String :=
  match d.find? (fun p => p.1 == k) with
  | some p => p.2
  | none => ""

/-- `LLMClient.summarize_issues` (lines 93–155).  `configured` is
`self.client is not None`; `jsonParse` abstracts `json.loads` +
field extraction (`none` = `JSONDecodeError`); `callResult` abstracts the
`_call_llm` exchange (error = the exhausted retry loop raised).  Note the
JSON-failure branch returns the fence-stripped `content`, which was
reassigned on lines 143/145, not the original response text. -/
def summarize_issues (configured : Bool)
    (jsonParse : String → Option (List (String × String)))
    (service : String) (findings : List String)
    (callResult : Except String String) : String × String :=
  if configured = false then
    (fallback_summary findings, fallback_remedy service)
  else
    match callResult with
    | Except.error _ => (fallback_summary findings, fallback_remedy service)
    | Except.ok raw =>
      let content := stripFence raw
      match jsonParse content.trim with
      | some d => (dictGetStr d "summary", dictGetStr d "remedy")
      | none => (content, "")

/-- `LLMClient.generate_commands` (lines 157–225).  `parseCmds` abstracts
`json.loads` + `result.get("commands", [])`; on success the code keeps
`[str(cmd) for cmd in commands if cmd]`, i.e. drops falsy (empty)
strings. -/
def generate_commands (configured : Bool)
    (parseCmds : String → Option (List String))
    (service : String) (resource_ids : List String)
    (callResult : Except String String) : List String :=
  if configured = false then
    fallback_commands service resource_ids
  else
    match callResult with
    | Except.error _ => fallback_commands service resource_ids
    | Except.ok raw =>
      let content := stripFence raw
      match parseCmds content.trim with
      | some cmds => cmds.filter (fun c => !(c == ""))
      | none => []

/-- `LLMClient._call_llm`'s retry loop (lines 48–91), with the provider
modelled as `outcome : Nat → Except String String` giving each attempt's
result.  Recursion is on the remaining iterations of
`for attempt in range(max_retries)`; `rem = 0` inside the loop body means
the current attempt is the last one, whose error is re-raised.  Besides
the Python return value the model returns the trace of
(attempt index, model) pairs actually used, `model =
self.models[attempt % len(self.models)]` (line 60). -/
def rotAux (models : List String) (outcome : Nat → Except String String) :
    Nat → Nat → Except String String × List (Nat × String)
  | _, 0 => (Except.error "", [])
  | i, rem + 1 =>
    let m := models.getD (i % models.length) ""
    match outcome i with
    | Except.ok r => (Except.ok r, [(i, m)])
    | Except.error e =>
      if rem = 0 then (Except.error e, [(i, m)])
      else
        let next := rotAux models outcome (i + 1) rem
        (next.1, (i, m) :: next.2)

/-- `_call_llm` with `max_retries = 6` (line 52). -/
def call_llm (models : List String) (outcome : Nat → Except String String) :
    Except String String × List (Nat × String) :=
  rotAux models outcome 0 6

theorem rotAux_ok (models : List String)
    (outcome : Nat → Except String String) (i rem : Nat) (v : String)
    (h : outcome i = Except.ok v) :
    rotAux models outcome i (rem + 1) =
      (Except.ok v, [(i, models.getD (i % models.length) "")]) := by
  rw [rotAux, h]

theorem rotAux_err (models : List String)
    (outcome : Nat → Except String String) (i rem : Nat) (e : String)
    (h : outcome i = Except.error e) :
    rotAux models outcome i (rem + 1) =
      if rem = 0 then
        (Except.error e, [(i, models.getD (i % models.length) "")])
      else
        ((rotAux models outcome (i + 1) rem).1,
          (i, models.getD (i % models.length) "") ::
            (rotAux models outcome (i + 1) rem).2) := by
  rw [rotAux, h]

theorem rotAux_length (models : List String)
    (outcome : Nat → Except String String) (rem i : Nat) :
    (rotAux models outcome i rem).2.length ≤ rem := by
  induction rem generalizing i with
  | zero => simp [rotAux]
  | succ r ih =>
    rcases h : outcome i with e | v
    · rw [rotAux_err models outcome i r e h]
      by_cases hr : r = 0
      · simp [hr]
      · have hh := ih (i + 1)
        rw [if_neg hr]
        simp only [List.length_cons]
        omega
    · rw [rotAux_ok models outcome i r v h]
      simp

theorem rotAux_models (models : List String)
    (outcome : Nat → Except String String) (rem i : Nat)
    (p : Nat × String) (hp : p ∈ (rotAux models outcome i rem).2) :
    p.2 = models.getD (p.1 % models.length) "" := by
  induction rem generalizing i with
  | zero => simp [rotAux] at hp
  | succ r ih =>
    rcases h : outcome i with e | v
    · rw [rotAux_err models outcome i r e h] at hp
      by_cases hr : r = 0
      · rw [if_pos hr] at hp
        simp at hp
        subst hp
        simp
      · rw [if_neg hr] at hp
        simp only [List.mem_cons] at hp
        rcases hp with hp | hp
        · subst hp
          simp
        · exact ih (i + 1) hp
    · rw [rotAux_ok models outcome i r v h] at hp
      simp at hp
      subst hp
      simp

theorem rotAux_indices (models : List String)
    (outcome : Nat → Except String String) (rem i : Nat) :
    (rotAux models outcome i rem).2.map Prod.fst =
      List.range' i (rotAux models outcome i rem).2.length := by
  induction rem generalizing i with
  | zero => simp [rotAux]
  | succ r ih =>
    rcases h : outcome i with e | v
    · rw [rotAux_err models outcome i r e h]
      by_cases hr : r = 0
      · rw [if_pos hr]
        simp
      · rw [if_neg hr]
        simp only [List.map_cons, List.length_cons, ih (i + 1)]
        rfl
    · rw [rotAux_ok models outcome i r v h]
      simp

theorem rotAux_exhaust (models : List String)
    (outcome : Nat → Except String String) (rem i : Nat)
    (hfail : ∀ j, i ≤ j → j ≤ i + rem → (outcome j).isOk = false) :
    ∃ e, outcome (i + rem) = Except.error e ∧
      (rotAux models outcome i (rem + 1)).1 = Except.error e := by
  induction rem generalizing i with
  | zero =>
    have h0 := hfail i (le_refl i) (by omega)
    rcases h : outcome i with e | v
    · refine ⟨e, by simpa using h, ?_⟩
      rw [rotAux_err models outcome i 0 e h]
      simp
    · rw [h] at h0
      simp [Except.isOk, Except.toBool] at h0
  | succ r ih =>
    have h0 := hfail i (le_refl i) (by omega)
    rcases h : outcome i with e | v
    · obtain ⟨e2, he2, hr2⟩ := ih (i + 1)
        (fun j hj1 hj2 => hfail j (by omega) (by omega))
      refine ⟨e2, ?_, ?_⟩
      · have harith : i + 1 + r = i + (r + 1) := by omega
        rw [← harith]
        exact he2
      · rw [rotAux_err models outcome i (r + 1) e h, if_neg (Nat.succ_ne_zero r)]
        exact hr2
    · rw [h] at h0
      simp [Except.isOk, Except.toBool] at h0

theorem rotAux_success (models : List String)
    (outcome : Nat → Except String String) (rem i k : Nat) (r : String)
    (hik : i ≤ k) (hkr : k < i + rem)
    (hfail : ∀ j, i ≤ j → j < k → (outcome j).isOk = false)
    (hok : outcome k = Except.ok r) :
    (rotAux models outcome i rem).1 = Except.ok r := by
  induction rem generalizing i with
  | zero => omega
  | succ rr ih =>
    by_cases hk : k = i
    · rw [← hk, rotAux_ok models outcome k rr r hok]
    · have h0 := hfail i (le_refl i) (by omega)
      rcases h : outcome i with e | v
      · have hrr : rr ≠ 0 := by omega
        rw [rotAux_err models outcome i rr e h, if_neg hrr]
        exact ih (i + 1) (by omega) (by omega)
          (fun j hj1 hj2 => hfail j (by omega) hj2)
      · rw [h] at h0
        simp [Except.isOk, Except.toBool] at h0

/-- C6: the retry loop makes at most 6 attempts, numbered 0,1,2,…;
attempt `i` uses model `models[i % len(models)]`; if all six attempts
fail the loop raises exactly the error of the last (6th) attempt; and a
success on any attempt — the 6th included — returns that attempt's
result without raising. -/
theorem call_llm_C6 (models : List String)
    (outcome : Nat → Except String String) :
    (call_llm models outcome).2.length ≤ 6 ∧
    (call_llm models outcome).2.map Prod.fst =
      List.range (call_llm models outcome).2.length ∧
    (∀ p ∈ (call_llm models outcome).2,
      p.2 = models.getD (p.1 % models.length) "") ∧
    ((∀ j, j < 6 → (outcome j).isOk = false) →
      ∃ e, outcome 5 = Except.error e ∧
        (call_llm models outcome).1 = Except.error e) ∧
    (∀ i r, i < 6 → (∀ j, j < i → (outcome j).isOk = false) →
      outcome i = Except.ok r → (call_llm models outcome).1 = Except.ok r) := by
  refine ⟨rotAux_length models outcome 6 0, ?_, ?_, ?_, ?_⟩
  · rw [call_llm, rotAux_indices models outcome 6 0, List.range_eq_range']
  · exact fun p hp => rotAux_models models outcome 6 0 p hp
  · intro hfail
    have h := rotAux_exhaust models outcome 5 0
      (fun j hj1 hj2 => hfail j (by omega))
    simpa using h
  · intro i r hi hfail hok
    exact rotAux_success models outcome 6 0 i r (by omega) (by omega)
      (fun j hj1 hj2 => hfail j hj2) hok

/-- The spec scenario for the retry loop: two models, failures on the
first five attempts, success on the sixth. -/
def scenarioOutcome : Nat → Except String String :=
  fun i => if i == 5 then Except.ok "result6" else Except.error ("err" ++ toString i)

/-- Witness for C6 at the spec scenario: models [A,B], five failures,
then a success on the 6th attempt is returned without raising. -/
theorem call_llm_C6_witness :
    (call_llm ["A", "B"] scenarioOutcome).1 = Except.ok "result6" :=
  (call_llm_C6 ["A", "B"] scenarioOutcome).2.2.2.2 5 "result6" (by omega)
    (fun j hj => by interval_cases j <;> rfl) rfl

/-- C7: unconfigured (no API credential) calls and exhausted-retry
failures both return exactly the deterministic fallback pair — summary
"Found \x7bN\x7d security issues that require attention." with N the
number of snippets, remedy "Review and remediate \x7bSERVICE\x7d security
configurations." with the upper-cased service — and the built-in command
template; in the unconfigured case the result does not depend on the
provider exchange at all (no call is made), and both functions are total,
so no error reaches the enclosing request. -/
theorem fallback_C7 (jsonParse : String → Option (List (String × String)))
    (parseCmds : String → Option (List String)) (service : String)
    (findings : List String) (resource_ids : List String)
    (callResult : Except String String) (e : String) :
    summarize_issues false jsonParse service findings callResult =
      ("Found " ++ toString findings.length ++
         " security issues that require attention.",
       "Review and remediate " ++ service.toUpper ++
         " security configurations.") ∧
    (∀ r1 r2, summarize_issues false jsonParse service findings r1 =
      summarize_issues false jsonParse service findings r2) ∧
    summarize_issues true jsonParse service findings (Except.error e) =
      ("Found " ++ toString findings.length ++
         " security issues that require attention.",
       "Review and remediate " ++ service.toUpper ++
         " security configurations.") ∧
    generate_commands false parseCmds service resource_ids callResult =
      fallback_commands service resource_ids ∧
    (∀ r1 r2, generate_commands false parseCmds service resource_ids r1 =
      generate_commands false parseCmds service resource_ids r2) ∧
    generate_commands true parseCmds service resource_ids (Except.error e) =
      fallback_commands service resource_ids :=
  ⟨rfl, fun _ _ => rfl, rfl, rfl, fun _ _ => rfl, rfl⟩

/-- C8 counterexample: fenced but unparsable provider output.  The code
returns the fence-stripped text as the summary, which differs from the
raw provider text, refuting "returns the raw text as the summary". -/
theorem parse_raw_counterexample_C8 :
    summarize_issues true (fun _ => none) "s3" []
        (Except.ok "```\nnot json\n```") = ("\nnot json\n", "") ∧
    ("\nnot json\n" : String) ≠ "```\nnot json\n```" := by
  constructor
  · decide
  · decide

/-- C8 amended: both calls first strip an optional markdown code fence,
then parse; parse success returns the extracted `summary`/`remedy` fields
(resp. the `commands` array with falsy entries dropped), and unparsable
output degrades — without retrying — to the fence-stripped text (the raw
text exactly when no fence is present) as the summary with an empty
remedy, resp. to an empty command list. -/
theorem parse_degradation_C8
    (jsonParse : String → Option (List (String × String)))
    (parseCmds : String → Option (List String))
    (service : String) (findings : List String)
    (resource_ids : List String) (raw : String) :
    (jsonParse (stripFence raw).trim = none →
      summarize_issues true jsonParse service findings (Except.ok raw) =
        (stripFence raw, "")) ∧
    (∀ d, jsonParse (stripFence raw).trim = some d →
      summarize_issues true jsonParse service findings (Except.ok raw) =
        (dictGetStr d "summary", dictGetStr d "remedy")) ∧
    (parseCmds (stripFence raw).trim = none →
      generate_commands true parseCmds service resource_ids (Except.ok raw) = []) ∧
    (∀ cmds, parseCmds (stripFence raw).trim = some cmds →
      generate_commands true parseCmds service resource_ids (Except.ok raw) =
        cmds.filter (fun c => !(c == ""))) ∧
    ((pySplit raw "```json").length = 1 → (pySplit raw "```").length = 1 →
      stripFence raw = raw) := by
  refine ⟨?_, ?_, ?_, ?_, ?_⟩
  · intro h
    simp [summarize_issues, h]
  · intro d h
    simp [summarize_issues, h]
  · intro h
    simp [generate_commands, h]
  · intro cmds h
    simp [generate_commands, h]
  · intro h1 h2
    simp [stripFence, h1, h2]

/-- Witness for the amended C8: a concrete unfenced unparsable output
comes back verbatim as the summary with an empty remedy. -/
theorem parse_degradation_C8_witness :
    summarize_issues true (fun _ => none) "ec2" [] (Except.ok "hello") =
      ("hello", "") :=
  (parse_degradation_C8 (fun _ => none) (fun _ => none) "ec2" [] [] "hello").1
    rfl

/-- C10: the built-in fallback command template: for "s3" one
put-bucket-encryption command per resource id among the first three (an
empty id list yields no commands), for "ec2" exactly one fixed
describe-security-groups command, and for every other service the empty
list. -/
theorem fallback_commands_C10 (resource_ids : List String) (service : String) :
    fallback_commands "s3" resource_ids =
      (resource_ids.take 3).map (fun rid =>
        "# Enable encryption for bucket " ++ rid ++
        "\naws s3api put-bucket-encryption --bucket " ++ rid ++
        " --server-side-encryption-configuration '\x7b\"Rules\":[\x7b\"ApplyServerSideEncryptionByDefault\":\x7b\"SSEAlgorithm\":\"AES256\"\x7d\x7d]\x7d'") ∧
    (fallback_commands "s3" resource_ids).length = min 3 resource_ids.length ∧
    fallback_commands "s3" [] = [] ∧
    fallback_commands "ec2" resource_ids =
      ["# Review security group rules\naws ec2 describe-security-groups --query 'SecurityGroups[?IpPermissions[?IpRanges[?CidrIp==`0.0.0.0/0`]]]'"] ∧
    (service ≠ "s3" → service ≠ "ec2" →
      fallback_commands service resource_ids = []) := by
  refine ⟨rfl, ?_, rfl, rfl, ?_⟩
  · simp [fallback_commands]
  · intro h1 h2
    simp [fallback_commands, h1, h2]

/-- Witness for C10 at a service outside the template table. -/
theorem fallback_commands_C10_witness :
    fallback_commands "iam" ["r-1"] = [] :=
  (fallback_commands_C10 ["r-1"] "iam").2.2.2.2 (by decide) (by decide)

/-- The spec's three-finding scenario scan. -/
def demoScan : List Finding :=
  highFailPair ++ [mkF "ec2" "sg-check" FINDING_STATUS_PASS SEVERITY_LOW]

/-- Witness for C1 at the spec's three-finding scenario. -/
theorem grouping_partitions_C1_witness :
    ((group_findings demoScan).map (fun g => g.2.length)).sum =
      demoScan.length ∧
    lookupGroup "s3:enc-check" (group_findings demoScan) =
      demoScan.filter (fun f => groupKey f == "s3:enc-check") :=
  ⟨(grouping_partitions_C1 demoScan).2.2.2,
   (grouping_partitions_C1 demoScan).2.1 "s3:enc-check"⟩

end CloudCop
